import Mathlib

/-!
Verification of the Mess-Manager ledger engine.

Shallow embedding of the class MessFundManager in src/main.py. The embedding
is per group: every engine operation of the Python class takes a group id,
calls init_group (which, for a group that already exists with all fields
present, changes nothing), and then reads or mutates the fields of
self.data[group_id]. We model that per-group record as the structure Group
below, and each method as a Lean function from the explicit inputs and the
Group to its result and/or the updated Group.

Conventions of the embedding:
- Python monetary amounts are floats; the algebraic claims about the
  settlement are posed in exact arithmetic, so amounts are embedded as Rat.
- Meal counts are Python ints validated to be nonnegative by every writer
  (the conversation handlers reject negative input before calling the
  engine), matching the data-model invariant "non-negative integer meal
  count"; they are embedded as Nat.
- Python dicts keyed by user id or by month string are embedded as
  association lists (List of key-value pairs) with first-match lookup and
  insertion at the end for a fresh key, mirroring dict insertion order.
- Every call of datetime.now() inside a method observes the same instant;
  the three strftime projections used by the code (month "%Y-%m", day
  "%Y-%m-%d", full timestamp) are passed in explicitly as a Clock value.
-/

/-- The three strftime projections of datetime.now() that the code uses. -/
structure Clock where
  month : String
  day : String
  stamp : String
deriving DecidableEq, Repr

/-- A member record, as stored in data[gid].members (main.py lines 85-90). -/
structure Member where
  name : String
  username : String
  joined_date : String
deriving DecidableEq, Repr

/-- An expense record, as built by add_expense (main.py lines 100-107). -/
structure Expense where
  amount : Rat
  description : String
  added_by : String
  added_by_id : String
  date : String
  month : String
deriving DecidableEq, Repr

/-- The per-month meal submission stored in meal_counts (lines 120-124). -/
structure MealSubmission where
  data : List (String × Nat)
  submitted_by : String
  submitted_date : String
deriving DecidableEq, Repr

/-- One per-member line of a computed settlement (lines 269-276, 280-287). -/
structure SettlementLine where
  user_id : String
  name : String
  spent : Rat
  meals : Nat
  owes : Rat
  balance : Rat
deriving DecidableEq, Repr

/-- The dict returned by calculate_settlement (main.py lines 291-300). -/
structure Settlement where
  month : String
  carry_forward : Rat
  total_expenses : Rat
  total_with_carry : Rat
  total_meals : Nat
  cost_per_meal : Rat
  settlements : List SettlementLine
  remaining : Rat
deriving DecidableEq, Repr

/-- An entry of data[gid].settlements appended by reset_month (310-313). -/
structure ArchivedSettlement where
  settlement : Settlement
  archived_date : String
deriving DecidableEq, Repr

/-- The per-group state self.data[group_id] (main.py lines 48-58). -/
structure GroupState where
  group_name : String
  members : List (String × Member)
  expenses : List Expense
  meal_counts : List (String × MealSubmission)
  current_month : String
  settlements : List ArchivedSettlement
  carry_forward : Rat
  created_date : String
  meal_data_submitted : Bool
deriving DecidableEq, Repr

/-- init_group for an absent group id (main.py lines 48-58): the freshly
created group state. For a present group with all fields populated (every
state of type Group) init_group is the identity. -/
def initGroup (clock : Clock) : GroupState :=
  { group_name := ""
    members := []
    expenses := []
    meal_counts := []
    current_month := clock.month
    settlements := []
    carry_forward := 0
    created_date := clock.day
    meal_data_submitted := false }

/-- Python dict assignment d[k] = v on an association list: overwrite in
place if the key is present, append otherwise. -/
def setKey {β : Type} (l : List (String × β)) (k : String) (v : β) :
    List (String × β) :=
  match l with
  | [] => [(k, v)]
  | (k0, v0) :: rest =>
      if k0 == k then (k, v) :: rest else (k0, v0) :: setKey rest k v

/-- add_member (main.py lines 80-93): insert a fresh member with
joined_date = today and report true; report false and change nothing when
the id is already present. -/
def add_member (clock : Clock) (name : String) (user_id : String)
    (username : String) (g : GroupState) : Bool × GroupState :=
  match g.members.lookup user_id with
  | some _ => (false, g)
  | none =>
      (true,
       { g with
           members := g.members ++
             [(user_id,
               { name := name, username := username,
                 joined_date := clock.day })] })

/-- add_expense (main.py lines 95-109): append an expense stamped with the
wall-clock month. -/
def add_expense (clock : Clock) (amount : Rat) (description : String)
    (added_by : String) (added_by_id : String) (g : GroupState) : GroupState :=
  { g with
      expenses := g.expenses ++
        [{ amount := amount, description := description,
           added_by := added_by, added_by_id := added_by_id,
           date := clock.stamp, month := clock.month }] }

/-- set_meal_counts (main.py lines 111-126): overwrite the submission for
the wall-clock month wholesale and raise the submitted flag. -/
def set_meal_counts (clock : Clock) (meal_data : List (String × Nat))
    (submitted_by : String) (g : GroupState) : GroupState :=
  { g with
      meal_counts := setKey g.meal_counts clock.month
        { data := meal_data, submitted_by := submitted_by,
          submitted_date := clock.stamp }
      meal_data_submitted := true }

/-- update_single_meal_count (main.py lines 128-142): false when there is
no submission for the wall-clock month, otherwise overwrite one entry. -/
def update_single_meal_count (clock : Clock) (user_id : String)
    (new_count : Nat) (g : GroupState) : Bool × GroupState :=
  match g.meal_counts.lookup clock.month with
  | none => (false, g)
  | some ms =>
      (true,
       { g with
           meal_counts := setKey g.meal_counts clock.month
             { ms with data := setKey ms.data user_id new_count } })

/-- get_current_month_expenses (main.py lines 144-151): the expenses whose
month field equals the wall-clock month at query time. -/
def get_current_month_expenses (clock : Clock) (g : GroupState) : List Expense :=
  g.expenses.filter (fun e => e.month == clock.month)

/-- get_current_month_meals (main.py lines 153-162): the counts of the
submission keyed by the wall-clock month, or empty. -/
def get_current_month_meals (clock : Clock) (g : GroupState) :
    List (String × Nat) :=
  match g.meal_counts.lookup clock.month with
  | some ms => ms.data
  | none => []

/-- is_meal_data_submitted (main.py lines 164-168). -/
def is_meal_data_submitted (g : GroupState) : Bool :=
  g.meal_data_submitted

/-- One value of the member_spent accumulator dict (main.py line 253). -/
structure SpentRec where
  name : String
  spent : Rat
deriving DecidableEq, Repr

/-- One step of the member_spent accumulation (main.py lines 249-254): the
name stored is the one on the first-seen expense of that id, and spent
accumulates the amounts. -/
def addSpent (ms : List (String × SpentRec)) (user_id : String)
    (name : String) (amount : Rat) : List (String × SpentRec) :=
  match ms with
  | [] => [(user_id, { name := name, spent := amount })]
  | (k, r) :: rest =>
      if k == user_id then (k, { r with spent := r.spent + amount }) :: rest
      else (k, r) :: addSpent rest user_id name amount

/-- The member_spent dict of calculate_settlement (main.py lines 248-254). -/
def buildMemberSpent (expenses : List Expense) : List (String × SpentRec) :=
  expenses.foldl (fun ms e => addSpent ms e.added_by_id e.added_by e.amount) []

/-- Name resolution for a settlement line (main.py lines 262-265): the
registry name if registered, else the first name on their expenses, else
the synthesized label. -/
def memberName (g : GroupState) (member_spent : List (String × SpentRec))
    (user_id : String) : String :=
  match g.members.lookup user_id with
  | some m => m.name
  | none =>
      match member_spent.lookup user_id with
      | some r => r.name
      | none => "Member " ++ user_id

/-- member_spent.get(user_id, dict()).get(a, 0) (main.py line 259). -/
def spentOf (member_spent : List (String × SpentRec)) (user_id : String) :
    Rat :=
  match member_spent.lookup user_id with
  | some r => r.spent
  | none => 0

/-- The settlement line built for one meal_data entry (main.py 258-276). -/
def mealLine (g : GroupState) (member_spent : List (String × SpentRec))
    (cost_per_meal : Rat) (p : String × Nat) : SettlementLine :=
  { user_id := p.1
    name := memberName g member_spent p.1
    spent := spentOf member_spent p.1
    meals := p.2
    owes := (p.2 : Rat) * cost_per_meal
    balance := spentOf member_spent p.1 - (p.2 : Rat) * cost_per_meal }

/-- The settlement line built for one member who spent but has no meal
entry (main.py lines 278-287). -/
def extraLine (p : String × SpentRec) : SettlementLine :=
  { user_id := p.1
    name := p.2.name
    spent := p.2.spent
    meals := 0
    owes := 0
    balance := p.2.spent }

/-- Local total_expenses of calculate_settlement (main.py line 239). -/
def total_expensesOf (clock : Clock) (g : GroupState) : Rat :=
  ((get_current_month_expenses clock g).map (fun e => e.amount)).sum

/-- Local total_with_carry of calculate_settlement (main.py line 240). -/
def total_with_carryOf (clock : Clock) (g : GroupState) : Rat :=
  total_expensesOf clock g + g.carry_forward

/-- Local total_meals of calculate_settlement (main.py line 241). -/
def total_mealsOf (clock : Clock) (g : GroupState) : Nat :=
  ((get_current_month_meals clock g).map (fun p => p.2)).sum

/-- Local cost_per_meal of calculate_settlement (main.py line 246); the
code evaluates it only behind the total_meals == 0 guard. -/
def cost_per_mealOf (clock : Clock) (g : GroupState) : Rat :=
  total_with_carryOf clock g / (total_mealsOf clock g : Rat)

/-- The settlements list of calculate_settlement (main.py lines 256-287):
one line per meal_data entry, then one line per member_spent entry whose
id has no meal_data entry, in iteration order. -/
def settlementLines (clock : Clock) (g : GroupState) : List SettlementLine :=
  (get_current_month_meals clock g).map
    (mealLine g (buildMemberSpent (get_current_month_expenses clock g))
      (cost_per_mealOf clock g)) ++
  ((buildMemberSpent (get_current_month_expenses clock g)).filter
    (fun p => ((get_current_month_meals clock g).lookup p.1).isNone)).map
    extraLine

/-- The dict calculate_settlement returns on success (main.py 289-300). -/
def mkSettlement (clock : Clock) (g : GroupState) : Settlement :=
  { month := clock.month
    carry_forward := g.carry_forward
    total_expenses := total_expensesOf clock g
    total_with_carry := total_with_carryOf clock g
    total_meals := total_mealsOf clock g
    cost_per_meal := cost_per_mealOf clock g
    settlements := settlementLines clock g
    remaining := total_expensesOf clock g -
      cost_per_mealOf clock g * (total_mealsOf clock g : Rat) }

/-- calculate_settlement (main.py lines 226-300): None when the current
month has no expenses or no meal data, None again when the meal counts sum
to zero, and the settlement dict otherwise. -/
def calculate_settlement (clock : Clock) (g : GroupState) : Option Settlement :=
  if (get_current_month_expenses clock g).isEmpty ||
      (get_current_month_meals clock g).isEmpty then none
  else if total_mealsOf clock g == 0 then none
  else some (mkSettlement clock g)

/-- reset_month (main.py lines 302-325): compute the settlement; when one
was produced (calculate_settlement returned a dict, which is always
truthy), archive it with a timestamp and overwrite carry_forward with its
remaining; then unconditionally drop the expenses of the wall-clock month,
clear the submitted flag, and set current_month to the wall-clock month.
Returns the computed settlement. -/
def reset_month (clock : Clock) (g : GroupState) : Option Settlement × GroupState :=
  match calculate_settlement clock g with
  | some s =>
      (some s,
       { g with
           settlements := g.settlements ++
             [{ settlement := s, archived_date := clock.stamp }]
           carry_forward := s.remaining
           expenses := g.expenses.filter (fun e => e.month != clock.month)
           meal_data_submitted := false
           current_month := clock.month })
  | none =>
      (none,
       { g with
           expenses := g.expenses.filter (fun e => e.month != clock.month)
           meal_data_submitted := false
           current_month := clock.month })

/-- get_member_stats (main.py lines 331-347). -/
def get_member_stats (clock : Clock) (user_id : String) (g : GroupState) :
    Rat × Nat × Nat :=
  let expenses := get_current_month_expenses clock g
  let meal_data := get_current_month_meals clock g
  (((expenses.filter (fun e => e.added_by_id == user_id)).map
      (fun e => e.amount)).sum,
   (match meal_data.lookup user_id with | some n => n | none => 0),
   (expenses.filter (fun e => e.added_by_id == user_id)).length)

/-! ## General lemmas about the embedded operations -/

theorem lookup_append_single {β : Type} (l : List (String × β)) (k : String)
    (v : β) (h : l.lookup k = none) : (l ++ [(k, v)]).lookup k = some v := by
  induction l with
  | nil => simp [List.lookup]
  | cons p t ih =>
      obtain ⟨k0, v0⟩ := p
      by_cases hk : (k == k0) = true
      · simp [List.lookup, hk] at h
      · simp only [List.cons_append, List.lookup, hk] at h ⊢
        exact ih h

theorem reset_month_expenses (clock : Clock) (g : GroupState) :
    ((reset_month clock g).2).expenses =
      g.expenses.filter (fun e => e.month != clock.month) := by
  unfold reset_month
  cases calculate_settlement clock g <;> rfl

theorem reset_month_meal_counts (clock : Clock) (g : GroupState) :
    ((reset_month clock g).2).meal_counts = g.meal_counts := by
  unfold reset_month
  cases calculate_settlement clock g <;> rfl

theorem reset_month_submitted (clock : Clock) (g : GroupState) :
    ((reset_month clock g).2).meal_data_submitted = false := by
  unfold reset_month
  cases calculate_settlement clock g <;> rfl

theorem reset_month_current_month (clock : Clock) (g : GroupState) :
    ((reset_month clock g).2).current_month = clock.month := by
  unfold reset_month
  cases calculate_settlement clock g <;> rfl

theorem filter_month_eq_of_filter_ne (m : String) (l : List Expense) :
    (l.filter (fun e => e.month != m)).filter (fun e => e.month == m) = [] := by
  induction l with
  | nil => rfl
  | cons e t ih =>
      by_cases h : (e.month == m) = true
      · simp [List.filter_cons, bne, h, ih]
      · simp [List.filter_cons, bne, h, ih]

/-! ## Claim C8 -/

/-- C8: registerMember is idempotent — a second add_member call with the
same user id returns false (already registered) and leaves the state
reached after the first call completely unchanged. -/
theorem c8_register_idempotent (clock clock2 : Clock) (g : GroupState)
    (name name2 username username2 user_id : String) :
    add_member clock2 name2 user_id username2
        (add_member clock name user_id username g).2 =
      (false, (add_member clock name user_id username g).2) := by
  unfold add_member
  cases h : g.members.lookup user_id with
  | some m => simp [h]
  | none => simp [h, lookup_append_single _ _ _ h]

/-! ## Claim C1 -/

def clockC1 : Clock :=
  { month := "2025-02", day := "2025-02-01", stamp := "2025-02-01 00:05:00" }

def expC1 : Expense :=
  { amount := 100, description := "rice", added_by := "Alice",
    added_by_id := "u1", date := "2025-02-01 00:01:00", month := "2025-02" }

def gC1 : GroupState :=
  { group_name := ""
    members := []
    expenses := [expC1]
    meal_counts := []
    current_month := "2025-01"
    settlements := []
    carry_forward := 0
    created_date := "2025-01-03"
    meal_data_submitted := false }

/-- C1 counterexample: in a group whose stored current_month is 2025-01,
queried when the wall clock reads 2025-02, get_current_month_expenses
returns the 2025-02 expense — it does not equal the filter by the group's
stored current_month field, which would be empty. -/
theorem c1_counterexample :
    get_current_month_expenses clockC1 gC1 = [expC1] ∧
    gC1.expenses.filter (fun e => e.month == gC1.current_month) = [] ∧
    get_current_month_expenses clockC1 gC1 ≠
      gC1.expenses.filter (fun e => e.month == gC1.current_month) := by
  have h1 : get_current_month_expenses clockC1 gC1 = [expC1] := by
    with_unfolding_all rfl
  have h2 : gC1.expenses.filter (fun e => e.month == gC1.current_month) = [] := by
    with_unfolding_all rfl
  refine ⟨h1, h2, ?_⟩
  rw [h1, h2]
  simp

/-- C1 (amended): get_current_month_expenses returns exactly the expense
records whose stored month equals the wall-clock month at query time; this
coincides with filtering by the group's stored current_month precisely
when current_month equals that wall-clock month. -/
theorem c1_amended (clock : Clock) (g : GroupState) :
    get_current_month_expenses clock g =
      g.expenses.filter (fun e => e.month == clock.month) ∧
    (g.current_month = clock.month →
      get_current_month_expenses clock g =
        g.expenses.filter (fun e => e.month == g.current_month)) := by
  refine ⟨rfl, fun h => ?_⟩
  rw [h]
  rfl

def clockC1w : Clock :=
  { month := "2025-01", day := "2025-01-15", stamp := "2025-01-15 12:00:00" }

def gC1w : GroupState :=
  { group_name := ""
    members := []
    expenses := [{ amount := 40, description := "dal", added_by := "Bob",
                   added_by_id := "u2", date := "2025-01-10 09:00:00",
                   month := "2025-01" }]
    meal_counts := []
    current_month := "2025-01"
    settlements := []
    carry_forward := 0
    created_date := "2025-01-01"
    meal_data_submitted := false }

/-- Witness for the amended C1 at a state whose current_month agrees with
the wall clock. -/
theorem c1_amended_witness :
    get_current_month_expenses clockC1w gC1w =
      gC1w.expenses.filter (fun e => e.month == gC1w.current_month) :=
  (c1_amended clockC1w gC1w).2 rfl

/-! ## Claim C2 -/

def clockC2 : Clock :=
  { month := "2025-02", day := "2025-02-01", stamp := "2025-02-01 08:00:00" }

def expC2 : Expense :=
  { amount := 250, description := "vegetables", added_by := "Bob",
    added_by_id := "u2", date := "2025-01-20 18:00:00", month := "2025-01" }

def gC2 : GroupState :=
  { group_name := ""
    members := []
    expenses := [expC2]
    meal_counts := []
    current_month := "2025-01"
    settlements := []
    carry_forward := 0
    created_date := "2025-01-01"
    meal_data_submitted := false }

def clockC2b : Clock :=
  { month := "2025-01", day := "2025-01-31", stamp := "2025-01-31 22:00:00" }

def gC2b : GroupState :=
  { group_name := ""
    members := []
    expenses := []
    meal_counts := []
    current_month := "2025-01"
    settlements := []
    carry_forward := 0
    created_date := "2025-01-01"
    meal_data_submitted := false }

/-- C2 counterexample: rotating gC2 when the wall clock already reads
2025-02 leaves the expense of the just-ended period 2025-01 in expenses,
and rotating gC2b within the same wall-clock month 2025-01 leaves
current_month equal to the just-ended key rather than a different one. -/
theorem c2_counterexample :
    (((reset_month clockC2 gC2).2).expenses = [expC2] ∧
      expC2.month = gC2.current_month) ∧
    ((reset_month clockC2b gC2b).2).current_month = gC2b.current_month := by
  refine ⟨⟨?_, ?_⟩, ?_⟩ <;> with_unfolding_all rfl

/-- C2 (amended): after reset_month at wall-clock month M, no expense
with period M remains (so the current-month query at M returns nothing),
mealDataSubmitted is false, and current_month is set to M — which need
not differ from the just-ended key; expenses of any other period,
including the just-ended one when it differs from M, are retained. -/
theorem c2_amended (clock : Clock) (g : GroupState) :
    get_current_month_expenses clock ((reset_month clock g).2) = [] ∧
    ((reset_month clock g).2).meal_data_submitted = false ∧
    ((reset_month clock g).2).current_month = clock.month ∧
    ∀ e, e ∈ g.expenses → e.month ≠ clock.month →
      e ∈ ((reset_month clock g).2).expenses := by
  refine ⟨?_, reset_month_submitted clock g, reset_month_current_month clock g, ?_⟩
  · unfold get_current_month_expenses
    rw [reset_month_expenses]
    exact filter_month_eq_of_filter_ne clock.month g.expenses
  · intro e he hm
    rw [reset_month_expenses]
    simp only [List.mem_filter]
    exact ⟨he, by simp [bne, hm]⟩

/-- Witness for the amended C2: the retained-expense clause applied to the
2025-01 expense of gC2 under a 2025-02 rotation, plus the purge clause. -/
theorem c2_amended_witness :
    get_current_month_expenses clockC2 ((reset_month clockC2 gC2).2) = [] ∧
    expC2 ∈ ((reset_month clockC2 gC2).2).expenses := by
  have h := c2_amended clockC2 gC2
  refine ⟨h.1, h.2.2.2 expC2 (by simp [gC2]) (by decide)⟩

/-! ## Claim C10 -/

/-- C10: reset_month never touches meal_counts; when the period key after
rotation equals the key before it, the submitted flag is cleared while the
current-month meal counts read back unchanged. -/
theorem c10_meals_survive_rotation (clock : Clock) (g : GroupState)
    (h : g.current_month = clock.month) :
    ((reset_month clock g).2).current_month = g.current_month ∧
    ((reset_month clock g).2).meal_data_submitted = false ∧
    get_current_month_meals clock ((reset_month clock g).2) =
      get_current_month_meals clock g := by
  refine ⟨?_, reset_month_submitted clock g, ?_⟩
  · rw [reset_month_current_month, h]
  · unfold get_current_month_meals
    rw [reset_month_meal_counts]

def clockC10 : Clock :=
  { month := "2025-05", day := "2025-05-31", stamp := "2025-05-31 21:00:00" }

def gC10 : GroupState :=
  { group_name := ""
    members := []
    expenses := [{ amount := 120, description := "milk", added_by := "Asha",
                   added_by_id := "u7", date := "2025-05-02 08:00:00",
                   month := "2025-05" }]
    meal_counts := [("2025-05",
      { data := [("u7", 12)], submitted_by := "Asha",
        submitted_date := "2025-05-30 19:00:00" })]
    current_month := "2025-05"
    settlements := []
    carry_forward := 0
    created_date := "2025-05-01"
    meal_data_submitted := true }

/-- Witness for C10: a same-month rotation that archives a settlement
still leaves the meal submission readable while the flag is false. -/
theorem c10_witness :
    ((reset_month clockC10 gC10).2).current_month = gC10.current_month ∧
    ((reset_month clockC10 gC10).2).meal_data_submitted = false ∧
    get_current_month_meals clockC10 ((reset_month clockC10 gC10).2) =
      [("u7", 12)] := by
  have h := c10_meals_survive_rotation clockC10 gC10 rfl
  exact ⟨h.1, h.2.1, h.2.2.trans (by with_unfolding_all rfl)⟩

/-! ## Shape of calculate_settlement results -/

theorem calculate_settlement_eq_some (clock : Clock) (g : GroupState)
    (s : Settlement) (h : calculate_settlement clock g = some s) :
    total_mealsOf clock g ≠ 0 ∧ s = mkSettlement clock g := by
  unfold calculate_settlement at h
  by_cases h1 : ((get_current_month_expenses clock g).isEmpty ||
      (get_current_month_meals clock g).isEmpty) = true
  · rw [if_pos h1] at h
    cases h
  · rw [if_neg h1] at h
    by_cases h2 : (total_mealsOf clock g == 0) = true
    · rw [if_pos h2] at h
      cases h
    · rw [if_neg h2] at h
      injection h with h3
      exact ⟨by simpa using h2, h3.symm⟩

theorem calculate_settlement_none_iff (clock : Clock) (g : GroupState) :
    calculate_settlement clock g = none ↔
      (get_current_month_expenses clock g).isEmpty = true ∨
      (get_current_month_meals clock g).isEmpty = true ∨
      total_mealsOf clock g = 0 := by
  unfold calculate_settlement
  by_cases h1 : ((get_current_month_expenses clock g).isEmpty ||
      (get_current_month_meals clock g).isEmpty) = true
  · rw [if_pos h1]
    simp only [true_iff]
    rcases Bool.or_eq_true_iff.mp h1 with h | h
    · exact Or.inl h
    · exact Or.inr (Or.inl h)
  · rw [if_neg h1]
    rw [Bool.or_eq_true, not_or] at h1
    by_cases h2 : (total_mealsOf clock g == 0) = true
    · rw [if_pos h2]
      simp only [true_iff]
      exact Or.inr (Or.inr (by simpa using h2))
    · rw [if_neg h2]
      constructor
      · intro hc
        cases hc
      · intro hc
        rcases hc with h | h | h
        · exact absurd h h1.1
        · exact absurd h h1.2
        · exact absurd h (by simpa using h2)

/-! ## Claim C4 -/

def clockC4 : Clock :=
  { month := "2025-06", day := "2025-06-30", stamp := "2025-06-30 20:00:00" }

def gC4a : GroupState :=
  { group_name := ""
    members := []
    expenses := []
    meal_counts := [("2025-06",
      { data := [("u1", 5)], submitted_by := "Ian",
        submitted_date := "2025-06-29 10:00:00" })]
    current_month := "2025-06"
    settlements := []
    carry_forward := 0
    created_date := "2025-06-01"
    meal_data_submitted := true }

def gC4b : GroupState :=
  { group_name := ""
    members := []
    expenses := [{ amount := 90, description := "gas", added_by := "Ian",
                   added_by_id := "u1", date := "2025-06-05 10:00:00",
                   month := "2025-06" }]
    meal_counts := [("2025-06",
      { data := [("u1", 0)], submitted_by := "Ian",
        submitted_date := "2025-06-29 10:00:00" })]
    current_month := "2025-06"
    settlements := []
    carry_forward := 0
    created_date := "2025-06-01"
    meal_data_submitted := true }

/-- C4 counterexample: an insufficient-data state (gC4a, no expenses) and
a zero-total-meals state (gC4b, expense and meal data present but counts
summing to zero) make calculate_settlement return the very same value,
None — the code emits no distinct NoMeals signal. -/
theorem c4_counterexample :
    calculate_settlement clockC4 gC4a = none ∧
    calculate_settlement clockC4 gC4b = none ∧
    (get_current_month_expenses clockC4 gC4b).isEmpty = false ∧
    (get_current_month_meals clockC4 gC4b).isEmpty = false ∧
    calculate_settlement clockC4 gC4a = calculate_settlement clockC4 gC4b := by
  refine ⟨?_, ?_, ?_, ?_, ?_⟩ <;> with_unfolding_all rfl

/-- C4 (amended): calculate_settlement returns the single undefined
signal None exactly when the current month's expenses are empty, its meal
data is empty, or the meal counts sum to zero — without distinguishing
the last case from the first two — and a division is only ever performed
behind the totalMeals == 0 guard: every settlement it produces has
total_meals different from zero, so no division by zero occurs. -/
theorem c4_amended (clock : Clock) (g : GroupState) :
    (calculate_settlement clock g = none ↔
      (get_current_month_expenses clock g).isEmpty = true ∨
      (get_current_month_meals clock g).isEmpty = true ∨
      total_mealsOf clock g = 0) ∧
    (∀ s, calculate_settlement clock g = some s → s.total_meals ≠ 0) := by
  refine ⟨calculate_settlement_none_iff clock g, fun s hs => ?_⟩
  obtain ⟨hne, hs'⟩ := calculate_settlement_eq_some clock g s hs
  rw [hs']
  exact hne

def gC4c : GroupState :=
  { group_name := ""
    members := []
    expenses := [{ amount := 50, description := "tea", added_by := "Ian",
                   added_by_id := "u1", date := "2025-06-05 10:00:00",
                   month := "2025-06" }]
    meal_counts := [("2025-06",
      { data := [("u1", 5)], submitted_by := "Ian",
        submitted_date := "2025-06-29 10:00:00" })]
    current_month := "2025-06"
    settlements := []
    carry_forward := 0
    created_date := "2025-06-01"
    meal_data_submitted := true }

def sC4c : Settlement :=
  { month := "2025-06"
    carry_forward := 0
    total_expenses := 50
    total_with_carry := 50
    total_meals := 5
    cost_per_meal := 10
    settlements := [{ user_id := "u1", name := "Ian", spent := 50,
                      meals := 5, owes := 50, balance := 0 }]
    remaining := 0 }

/-- Witness for the amended C4: the None case at gC4a and the guarded
division at the produced settlement sC4c. -/
theorem c4_amended_witness :
    calculate_settlement clockC4 gC4a = none ∧ sC4c.total_meals ≠ 0 := by
  refine ⟨(c4_amended clockC4 gC4a).1.mpr (Or.inl (by with_unfolding_all rfl)), ?_⟩
  exact (c4_amended clockC4 gC4c).2 sC4c (by with_unfolding_all rfl)

/-! ## Claim C9 -/

/-- C9: in exact arithmetic every produced settlement has
remainder = totalExpenses - costPerMeal * totalMeals = -carryForward,
since costPerMeal * totalMeals cancels to totalWithCarry exactly; with a
zero carry the remainder is exactly zero. -/
theorem c9_remainder_neg_carry (clock : Clock) (g : GroupState)
    (s : Settlement) (h : calculate_settlement clock g = some s) :
    s.cost_per_meal * (s.total_meals : Rat) = s.total_with_carry ∧
    s.remaining = - g.carry_forward ∧
    (g.carry_forward = 0 → s.remaining = 0) := by
  obtain ⟨hne, hs⟩ := calculate_settlement_eq_some clock g s h
  subst hs
  have hm : ((total_mealsOf clock g : Nat) : Rat) ≠ 0 := by
    exact_mod_cast hne
  have key : cost_per_mealOf clock g * ((total_mealsOf clock g : Nat) : Rat) =
      total_with_carryOf clock g := by
    rw [cost_per_mealOf]
    exact div_mul_cancel₀ _ hm
  have h1 : (mkSettlement clock g).remaining = - g.carry_forward := by
    show total_expensesOf clock g -
        cost_per_mealOf clock g * ((total_mealsOf clock g : Nat) : Rat) =
      - g.carry_forward
    rw [key, total_with_carryOf]
    ring
  exact ⟨key, h1, fun h0 => by rw [h1, h0, neg_zero]⟩

def clockC9 : Clock :=
  { month := "2025-07", day := "2025-07-31", stamp := "2025-07-31 20:00:00" }

def gC9 : GroupState :=
  { group_name := ""
    members := []
    expenses := [{ amount := 100, description := "rice", added_by := "Mia",
                   added_by_id := "u3", date := "2025-07-05 10:00:00",
                   month := "2025-07" }]
    meal_counts := [("2025-07",
      { data := [("u3", 4)], submitted_by := "Mia",
        submitted_date := "2025-07-30 10:00:00" })]
    current_month := "2025-07"
    settlements := []
    carry_forward := 7
    created_date := "2025-07-01"
    meal_data_submitted := true }

def sC9 : Settlement :=
  { month := "2025-07"
    carry_forward := 7
    total_expenses := 100
    total_with_carry := 107
    total_meals := 4
    cost_per_meal := 107 / 4
    settlements := [{ user_id := "u3", name := "Mia", spent := 100,
                      meals := 4, owes := 107, balance := -7 }]
    remaining := -7 }

/-- Witness for C9 at a carry-forward of 7: the remainder is exactly -7. -/
theorem c9_witness :
    sC9.cost_per_meal * (sC9.total_meals : Rat) = sC9.total_with_carry ∧
    sC9.remaining = -(7 : Rat) := by
  have h := c9_remainder_neg_carry clockC9 gC9 sC9 (by with_unfolding_all rfl)
  exact ⟨h.1, h.2.1.trans (by with_unfolding_all rfl)⟩

/-! ## Claim C3 -/

/-- C3: when reset_month computes a settlement it archives it with the
timestamp and overwrites carry_forward with its remainder, so any later
settlement computed from a state carrying that remainder uses it in
total_with_carry; when no settlement is computed, carry_forward and the
archive are untouched. -/
theorem c3_carry_forward_propagation (clock : Clock) (g : GroupState) :
    (∀ s, calculate_settlement clock g = some s →
      ((reset_month clock g).2).carry_forward = s.remaining ∧
      ((reset_month clock g).2).settlements =
        g.settlements ++ [{ settlement := s, archived_date := clock.stamp }] ∧
      ∀ clock2 g2 s2, g2.carry_forward = s.remaining →
        calculate_settlement clock2 g2 = some s2 →
        s2.total_with_carry = s2.total_expenses + s.remaining) ∧
    (calculate_settlement clock g = none →
      ((reset_month clock g).2).carry_forward = g.carry_forward ∧
      ((reset_month clock g).2).settlements = g.settlements) := by
  constructor
  · intro s hs
    refine ⟨?_, ?_, ?_⟩
    · unfold reset_month
      rw [hs]
    · unfold reset_month
      rw [hs]
    · intro clock2 g2 s2 hcf hs2
      obtain ⟨_, h2⟩ := calculate_settlement_eq_some clock2 g2 s2 hs2
      subst h2
      show total_with_carryOf clock2 g2 = total_expensesOf clock2 g2 + s.remaining
      rw [total_with_carryOf, hcf]
  · intro hn
    unfold reset_month
    rw [hn]
    exact ⟨rfl, rfl⟩

def clockC3 : Clock :=
  { month := "2025-04", day := "2025-04-30", stamp := "2025-04-30 21:00:00" }

def gC3 : GroupState :=
  { group_name := ""
    members := []
    expenses := [{ amount := 1000, description := "groceries",
                   added_by := "Alice", added_by_id := "u1",
                   date := "2025-04-10 12:00:00", month := "2025-04" }]
    meal_counts := [("2025-04",
      { data := [("u1", 100)], submitted_by := "Alice",
        submitted_date := "2025-04-29 09:00:00" })]
    current_month := "2025-04"
    settlements := []
    carry_forward := -50
    created_date := "2025-04-01"
    meal_data_submitted := true }

def sC3 : Settlement :=
  { month := "2025-04"
    carry_forward := -50
    total_expenses := 1000
    total_with_carry := 950
    total_meals := 100
    cost_per_meal := 19 / 2
    settlements := [{ user_id := "u1", name := "Alice", spent := 1000,
                      meals := 100, owes := 950, balance := 50 }]
    remaining := 50 }

def gC3next : GroupState :=
  { gC3 with carry_forward := 50 }

def sC3next : Settlement :=
  { month := "2025-04"
    carry_forward := 50
    total_expenses := 1000
    total_with_carry := 1050
    total_meals := 100
    cost_per_meal := 21 / 2
    settlements := [{ user_id := "u1", name := "Alice", spent := 1000,
                      meals := 100, owes := 1050, balance := -50 }]
    remaining := -50 }

/-- Witness for C3 at the spec's Scenario C numbers: a prior deficit of 50
turns into a remainder of 50, which the rotated state carries and the next
settlement computation absorbs into total_with_carry. -/
theorem c3_witness :
    ((reset_month clockC3 gC3).2).carry_forward = 50 ∧
    ((reset_month clockC3 gC3).2).settlements =
      [{ settlement := sC3, archived_date := "2025-04-30 21:00:00" }] ∧
    sC3next.total_with_carry = sC3next.total_expenses + 50 := by
  have h := (c3_carry_forward_propagation clockC3 gC3).1 sC3
    (by with_unfolding_all rfl)
  refine ⟨h.1.trans (by with_unfolding_all rfl), h.2.1.trans rfl, ?_⟩
  have h3 := h.2.2 clockC3 gC3next sC3next (by with_unfolding_all rfl)
    (by with_unfolding_all rfl)
  exact h3.trans (by with_unfolding_all rfl)

/-! ## Claim C5 -/

def clockC5 : Clock :=
  { month := "2025-03", day := "2025-03-31", stamp := "2025-03-31 20:00:00" }

def gC5 : GroupState :=
  { group_name := "mess"
    members := [("a", { name := "Alice", username := "al",
                        joined_date := "2025-03-01" }),
                ("b", { name := "Bob", username := "bo",
                        joined_date := "2025-03-01" })]
    expenses := [{ amount := 600, description := "groceries",
                   added_by := "Alice", added_by_id := "a",
                   date := "2025-03-10 12:00:00", month := "2025-03" }]
    meal_counts := [("2025-03",
      { data := [("a", 20), ("b", 10)], submitted_by := "Alice",
        submitted_date := "2025-03-30 09:00:00" })]
    current_month := "2025-03"
    settlements := []
    carry_forward := 0
    created_date := "2025-03-01"
    meal_data_submitted := true }

/-- C5: the spec's Scenario B — Alice spends 600 and logs 20 meals, Bob
spends nothing and logs 10 — yields totalWithCarry 600, totalMeals 30,
costPerMeal 20, Alice owing 400 with balance 200 and Bob owing 200 with
balance -200. -/
theorem c5_scenario_b :
    calculate_settlement clockC5 gC5 = some
      { month := "2025-03"
        carry_forward := 0
        total_expenses := 600
        total_with_carry := 600
        total_meals := 30
        cost_per_meal := 20
        settlements := [{ user_id := "a", name := "Alice", spent := 600,
                          meals := 20, owes := 400, balance := 200 },
                        { user_id := "b", name := "Bob", spent := 0,
                          meals := 10, owes := 200, balance := -200 }]
        remaining := 0 } := by
  with_unfolding_all rfl

/-! ## Claim C6 -/

/-- C6: every member identifier that appears in the member_spent
accumulator but not in the meal data receives a settlement line with
zero meals, zero owed, and a balance equal to their accumulated spending. -/
theorem c6_spender_without_meals (clock : Clock) (g : GroupState)
    (s : Settlement) (uid : String) (r : SpentRec)
    (h : calculate_settlement clock g = some s)
    (hmem : (uid, r) ∈ buildMemberSpent (get_current_month_expenses clock g))
    (hnone : (get_current_month_meals clock g).lookup uid = none) :
    ({ user_id := uid, name := r.name, spent := r.spent, meals := 0,
       owes := 0, balance := r.spent } : SettlementLine) ∈ s.settlements := by
  obtain ⟨_, hs⟩ := calculate_settlement_eq_some clock g s h
  subst hs
  show _ ∈ settlementLines clock g
  unfold settlementLines
  refine List.mem_append_right _ ?_
  refine List.mem_map.2 ⟨(uid, r), ?_, rfl⟩
  refine List.mem_filter.2 ⟨hmem, ?_⟩
  simp [hnone]

def clockC6 : Clock :=
  { month := "2025-08", day := "2025-08-31", stamp := "2025-08-31 20:00:00" }

def gC6 : GroupState :=
  { group_name := ""
    members := []
    expenses := [{ amount := 600, description := "groceries",
                   added_by := "Dave", added_by_id := "d",
                   date := "2025-08-04 12:00:00", month := "2025-08" },
                 { amount := 300, description := "fruit",
                   added_by := "Carol", added_by_id := "c",
                   date := "2025-08-09 12:00:00", month := "2025-08" }]
    meal_counts := [("2025-08",
      { data := [("d", 10)], submitted_by := "Dave",
        submitted_date := "2025-08-30 09:00:00" })]
    current_month := "2025-08"
    settlements := []
    carry_forward := 0
    created_date := "2025-08-01"
    meal_data_submitted := true }

def sC6 : Settlement :=
  { month := "2025-08"
    carry_forward := 0
    total_expenses := 900
    total_with_carry := 900
    total_meals := 10
    cost_per_meal := 90
    settlements := [{ user_id := "d", name := "Dave", spent := 600,
                      meals := 10, owes := 900, balance := -300 },
                    { user_id := "c", name := "Carol", spent := 300,
                      meals := 0, owes := 0, balance := 300 }]
    remaining := 0 }

/-- Witness for C6 at the spec's Scenario E: Carol spent 300, appears in
no meal submission, and her line reads meals 0, owes 0, balance 300. -/
theorem c6_witness :
    ({ user_id := "c", name := "Carol", spent := 300, meals := 0,
       owes := 0, balance := 300 } : SettlementLine) ∈ sC6.settlements := by
  have hb : buildMemberSpent (get_current_month_expenses clockC6 gC6) =
      [("d", { name := "Dave", spent := 600 }),
       ("c", { name := "Carol", spent := 300 })] := by
    with_unfolding_all rfl
  exact c6_spender_without_meals clockC6 gC6 sC6 "c"
    { name := "Carol", spent := 300 }
    (by with_unfolding_all rfl)
    (by rw [hb]; simp)
    (by with_unfolding_all rfl)

/-! ## Claim C7 -/

theorem sum_owes_mealLines (g : GroupState) (ms : List (String × SpentRec))
    (c : Rat) (md : List (String × Nat)) :
    (((md.map (mealLine g ms c)).map (fun l => l.owes)).sum) =
      (((md.map (fun p => p.2)).sum : Nat) : Rat) * c := by
  induction md with
  | nil => simp
  | cons p t ih =>
      simp only [List.map_cons, List.sum_cons, ih, mealLine]
      push_cast
      ring

theorem sum_owes_mealLines_pos (g : GroupState) (ms : List (String × SpentRec))
    (c : Rat) (md : List (String × Nat)) :
    ((((md.map (mealLine g ms c)).filter
        (fun l => decide (0 < l.meals))).map (fun l => l.owes)).sum) =
      (((md.map (fun p => p.2)).sum : Nat) : Rat) * c := by
  induction md with
  | nil => simp
  | cons p t ih =>
      by_cases h : 0 < p.2
      · rw [List.map_cons, List.filter_cons]
        have hd : (fun l => decide (0 < l.meals)) (mealLine g ms c p) = true := by
          simp [mealLine, h]
        rw [if_pos hd, List.map_cons, List.sum_cons, ih]
        simp only [mealLine]
        push_cast [List.map_cons, List.sum_cons]
        ring
      · have h0 : p.2 = 0 := Nat.eq_zero_of_not_pos h
        simp [List.filter_cons, mealLine, h0, ih]

theorem extraLines_filter_pos (l : List (String × SpentRec)) :
    (l.map extraLine).filter (fun x => decide (0 < x.meals)) = [] := by
  induction l with
  | nil => rfl
  | cons p t ih => simp [List.filter_cons, extraLine, ih]

theorem extraLines_sum_owes (l : List (String × SpentRec)) :
    ((l.map extraLine).map (fun x => x.owes)).sum = 0 := by
  induction l with
  | nil => rfl
  | cons p t ih =>
      rw [List.map_cons, List.map_cons, List.sum_cons, ih]
      simp [extraLine]

/-- C7: conservation — in every produced settlement the owes of the lines
with a positive meal count sum exactly (in rational arithmetic) to
costPerMeal * totalMeals, and totalExpenses minus the sum of all owes is
exactly the remainder. -/
theorem c7_conservation (clock : Clock) (g : GroupState) (s : Settlement)
    (h : calculate_settlement clock g = some s) :
    ((s.settlements.filter (fun l => decide (0 < l.meals))).map
        (fun l => l.owes)).sum = s.cost_per_meal * (s.total_meals : Rat) ∧
    s.total_expenses - (s.settlements.map (fun l => l.owes)).sum =
      s.remaining := by
  obtain ⟨_, hs⟩ := calculate_settlement_eq_some clock g s h
  subst hs
  constructor
  · show (((settlementLines clock g).filter (fun l => decide (0 < l.meals))).map
        (fun l => l.owes)).sum =
      cost_per_mealOf clock g * ((total_mealsOf clock g : Nat) : Rat)
    unfold settlementLines
    rw [List.filter_append, List.map_append, List.sum_append,
      extraLines_filter_pos, sum_owes_mealLines_pos]
    simp only [List.map_nil, List.sum_nil, add_zero]
    rw [total_mealsOf]
    ring
  · show total_expensesOf clock g -
        (((settlementLines clock g).map (fun l => l.owes)).sum) =
      total_expensesOf clock g -
        cost_per_mealOf clock g * ((total_mealsOf clock g : Nat) : Rat)
    unfold settlementLines
    rw [List.map_append, List.sum_append, sum_owes_mealLines,
      extraLines_sum_owes, add_zero, total_mealsOf]
    ring

def clockC7 : Clock :=
  { month := "2025-09", day := "2025-09-30", stamp := "2025-09-30 20:00:00" }

def gC7 : GroupState :=
  { group_name := ""
    members := []
    expenses := [{ amount := 600, description := "groceries",
                   added_by := "Amy", added_by_id := "a",
                   date := "2025-09-03 12:00:00", month := "2025-09" },
                 { amount := 300, description := "fruit",
                   added_by := "Cam", added_by_id := "c",
                   date := "2025-09-08 12:00:00", month := "2025-09" }]
    meal_counts := [("2025-09",
      { data := [("a", 20), ("b", 10), ("z", 0)], submitted_by := "Amy",
        submitted_date := "2025-09-29 09:00:00" })]
    current_month := "2025-09"
    settlements := []
    carry_forward := 0
    created_date := "2025-09-01"
    meal_data_submitted := true }

def sC7 : Settlement :=
  { month := "2025-09"
    carry_forward := 0
    total_expenses := 900
    total_with_carry := 900
    total_meals := 30
    cost_per_meal := 30
    settlements := [{ user_id := "a", name := "Amy", spent := 600,
                      meals := 20, owes := 600, balance := 0 },
                    { user_id := "b", name := "Member b", spent := 0,
                      meals := 10, owes := 300, balance := -300 },
                    { user_id := "z", name := "Member z", spent := 0,
                      meals := 0, owes := 0, balance := 0 },
                    { user_id := "c", name := "Cam", spent := 300,
                      meals := 0, owes := 0, balance := 300 }]
    remaining := 0 }

/-- Witness for C7 on a settlement that has a zero-meal submission entry
and a spender with no meal entry. -/
theorem c7_witness :
    ((sC7.settlements.filter (fun l => decide (0 < l.meals))).map
        (fun l => l.owes)).sum = sC7.cost_per_meal * (sC7.total_meals : Rat) ∧
    sC7.total_expenses - (sC7.settlements.map (fun l => l.owes)).sum =
      sC7.remaining :=
  c7_conservation clockC7 gC7 sC7 (by with_unfolding_all rfl)
